import Mathlib

deriving instance DecidableEq for Except

/-!
Shallow embedding of `bambooscanner`'s API client
(`src/bamboo_api/api.py`, class `BambooAPIClient`).

HTTP traffic is modelled by a *server* function from the requested
`start-index` query value (the only query parameter that changes across the
pages of one iteration; `max-result` and the endpoint-specific filters are
fixed for the whole iteration) to the decoded page envelope.  Python integers
are `Int`, strings are `String`, and a Python generator body is a pure
function returning the list of yielded items together with the list of
requested `start-index` values.  Each pagination loop takes a fuel argument
because the Python `while` loop need not terminate for an arbitrary server;
all theorems either supply enough fuel for the concrete scenario or hold for
every fuel.
-/

namespace Bamboo

/-- The decoded page envelope of a paginated JSON response: the fields
`size`, `max-result`, `start-index` and the ordered item list that the
Python code reads out of the (possibly nested) response dictionary.
Items are abstracted as natural numbers: the client passes them through
unmodified. -/
structure Envelope where
  size : Int
  maxResult : Int
  startIndex : Int
  items : List Nat
deriving Repr, DecidableEq

/-- A server: maps the requested `start-index` to the envelope the client
decodes from the response. -/
def Server : Type := Int → Envelope

/-- Loop body of `BambooAPIClient.get_builds` (api.py lines 168-188).
State: `start` is `qs['start-index']`, `size` is the Python local `size`
(initialised to 1 before the loop).  Per iteration: test `while size:`
(Python truthiness of an int, i.e. `size ≠ 0`), fetch the page, set
`size = results['size']`, abort if the echoed `start-index` is smaller
than the requested one, yield the page's items, then advance the cursor by
`size` (`qs['start-index'] += size`).  Returns the requested start-indices
and the yielded items. -/
def getBuildsGo (server : Server) : Nat → Int → Int → List Int × List Nat
  | 0, _, _ => ([], [])
  | fuel + 1, start, size =>
    if size = 0 then ([], [])
    else
      let env := server start
      if env.startIndex < start then ([start], [])
      else
        let rest := getBuildsGo server fuel (start + env.size) env.size
        (start :: rest.1, env.items ++ rest.2)

/-- `BambooAPIClient.get_builds` pagination, from `start-index = 0` with the
Python local `size` initialised to `1`. -/
def get_builds (server : Server) (fuel : Nat) : List Int × List Nat :=
  getBuildsGo server fuel 0 1

/-- Loop body of `BambooAPIClient.get_plans` (api.py lines 240-252).
State: `start` is `qs['start-index']`, `size` the Python local `size`
(initialised to 1).  Per iteration: test `while qs['start-index'] < size`,
fetch the page, set `size = plans['size']`, yield `plans['plan']`, advance
the cursor by `plans['max-result']`.  No check of the echoed `start-index`
is present in this method. -/
def getPlansGo (server : Server) : Nat → Int → Int → List Int × List Nat
  | 0, _, _ => ([], [])
  | fuel + 1, start, size =>
    if start < size then
      let env := server start
      let rest := getPlansGo server fuel (start + env.maxResult) env.size
      (start :: rest.1, env.items ++ rest.2)
    else ([], [])

/-- `BambooAPIClient.get_plans` pagination, from `start-index = 0`, `size = 1`. -/
def get_plans (server : Server) (fuel : Nat) : List Int × List Nat :=
  getPlansGo server fuel 0 1

/-- Loop body of `BambooAPIClient.get_branches` (api.py lines 271-283):
same loop as `get_plans`, reading `branches['size']`, `branches['branch']`
and `branches['max-result']`. -/
def getBranchesGo (server : Server) : Nat → Int → Int → List Int × List Nat
  | 0, _, _ => ([], [])
  | fuel + 1, start, size =>
    if start < size then
      let env := server start
      let rest := getBranchesGo server fuel (start + env.maxResult) env.size
      (start :: rest.1, env.items ++ rest.2)
    else ([], [])

/-- `BambooAPIClient.get_branches` pagination. -/
def get_branches (server : Server) (fuel : Nat) : List Int × List Nat :=
  getBranchesGo server fuel 0 1

/-- Loop body of `BambooAPIClient.get_results` (api.py lines 367-379):
same loop, reading `results['size']`, `results['result']`,
`results['max-result']`. -/
def getResultsGo (server : Server) : Nat → Int → Int → List Int × List Nat
  | 0, _, _ => ([], [])
  | fuel + 1, start, size =>
    if start < size then
      let env := server start
      let rest := getResultsGo server fuel (start + env.maxResult) env.size
      (start :: rest.1, env.items ++ rest.2)
    else ([], [])

/-- `BambooAPIClient.get_results` pagination. -/
def get_results (server : Server) (fuel : Nat) : List Int × List Nat :=
  getResultsGo server fuel 0 1

/-- Loop body of `BambooAPIClient.get_branch_results` (api.py lines 423-435):
same loop, reading `results['size']`, `results['result']`,
`results['max-result']`. -/
def getBranchResultsGo (server : Server) : Nat → Int → Int → List Int × List Nat
  | 0, _, _ => ([], [])
  | fuel + 1, start, size =>
    if start < size then
      let env := server start
      let rest := getBranchResultsGo server fuel (start + env.maxResult) env.size
      (start :: rest.1, env.items ++ rest.2)
    else ([], [])

/-- Loop body of `BambooAPIClient.get_environment_results` (api.py lines
213-224): same loop, reading the top-level `size`, `results` and
`max-result` keys. -/
def getEnvResultsGo (server : Server) : Nat → Int → Int → List Int × List Nat
  | 0, _, _ => ([], [])
  | fuel + 1, start, size =>
    if start < size then
      let env := server start
      let rest := getEnvResultsGo server fuel (start + env.maxResult) env.size
      (start :: rest.1, env.items ++ rest.2)
    else ([], [])

/-- `BambooAPIClient.get_environment_results` pagination. -/
def get_environment_results (server : Server) (fuel : Nat) : List Int × List Nat :=
  getEnvResultsGo server fuel 0 1

/-- Replace the `start-index` echoed by a server with arbitrary values,
leaving `size`, `max-result` and the items unchanged.  Used to state that a
method never inspects the echoed `start-index`. -/
def overrideStartIndex (server : Server) (f : Int → Int) : Server :=
  fun i => ⟨(server i).size, (server i).maxResult, f i, (server i).items⟩

/-- An HTTP response as the request primitives see it: status code, reason
phrase, body (the rest of the `requests` response object is irrelevant to
the client code). -/
structure HttpResponse where
  status_code : Nat
  reason : String
  body : String
deriving Repr, DecidableEq

/-- `BambooAPIClient._get_response` (api.py lines 46-54): perform the GET
through the session (modelled as a function from the URL to the response),
raise `Exception(res.reason)` when the status code is not 200, otherwise
return the response. -/
def _get_response (session : String → HttpResponse) (url : String) :
    Except String HttpResponse :=
  let res := session url
  if res.status_code ≠ 200 then .error res.reason else .ok res

/-- `BambooAPIClient._post_response` (api.py lines 56-64): POST through the
session (modelled as a function from URL and body data to the response),
raise `Exception(res.reason)` on a non-200 status, otherwise return the
response. -/
def _post_response (session : String → String → HttpResponse) (url : String)
    (data : String) : Except String HttpResponse :=
  let res := session url data
  if res.status_code ≠ 200 then .error res.reason else .ok res

/-- `BambooAPIClient._put_response` (api.py lines 66-74): PUT through the
session, raise `Exception(res.reason)` on a non-200 status, otherwise
return the response. -/
def _put_response (session : String → HttpResponse) (url : String) :
    Except String HttpResponse :=
  let res := session url
  if res.status_code ≠ 200 then .error res.reason else .ok res

/-- `BambooAPIClient._get_url` (api.py lines 76-83): the format string
`{}:{}{}{}` applied to host, port, prefix and endpoint — pure
concatenation, with the port rendered in decimal. -/
def _get_url (host : String) (port : Int) (pre : String) (endpoint : String) :
    String :=
  host ++ ":" ++ toString port ++ pre ++ endpoint

/-- The fixed allow-list `valid_expands` of
`BambooAPIClient._build_expand` (api.py lines 86-93). -/
def valid_expands : List String :=
  ["artifacts", "comments", "labels", "jiraIssues", "stages",
   "stages.stage", "stages.stage.results", "stages.stage.results.result"]

/-- The list the Python generator expression inside `_build_expand`
produces before joining: the caller-supplied keys, deduplicated (Python
`set(expand)`), intersected with the allow-list, each turned into
`'.'.join(['results.result', x])`.  Python's set iteration order is
unspecified; first-occurrence order is used here, and all stated
properties are order-independent. -/
def buildExpandList (expand : List String) : List String :=
  (expand.dedup.filter (fun x => x ∈ valid_expands)).map
    (fun x => "results.result." ++ x)

/-- `BambooAPIClient._build_expand` (api.py lines 85-96): comma-join of the
prefixed surviving keys. -/
def _build_expand (expand : List String) : String :=
  String.intercalate "," (buildExpandList expand)

/-- URL construction of `BambooAPIClient.get_results` (api.py lines
358-365): when both `build_number` and `plan_key` are not `None`,
`plan_key` is replaced by `plan_key + '-' + build_number`; the final path
segment is `plan_key or 'all'` (Python truthiness: `None` and the empty
string both fall back to `'all'`).  `base` stands for
`self._get_url(self.RESULT_SERVICE)`. -/
def getResultsUrl (base : String) (plan_key : Option String)
    (build_number : Option String) : String :=
  let pk : Option String :=
    match build_number, plan_key with
    | some n, some k => some (k ++ "-" ++ n)
    | _, _ => plan_key
  base ++ "/" ++ (match pk with
    | some k => if k = "" then "all" else k
    | none => "all")

/-- The fixed tuple `valid_build_states` of
`BambooAPIClient.get_branch_results` (api.py line 414). -/
def valid_build_states : List String := ["Successful", "Failed", "Unknown"]

/-- The message of the `ValueError` raised by `get_branch_results`
(api.py lines 416-417). -/
def buildStateError : String :=
  "Incorrect value for build_state. Valid values include: Successful,Failed,Unknown"

/-- `BambooAPIClient.get_branch_results` (api.py lines 381-435), restricted
to the state the claims depend on: the `build_state` parameter (an
`Option String`, `none` for Python `None`) and the pagination loop.  The
Python guard is `if build_state:` — truthiness, so the empty string skips
the whole block; inside it, a value outside `valid_build_states` raises the
`ValueError` before the loop makes any request.  Returns the requested
start-indices paired with either the validation error or the yielded
items. -/
def get_branch_results (server : Server) (build_state : Option String)
    (fuel : Nat) : List Int × Except String (List Nat) :=
  let run := getBranchResultsGo server fuel 0 1
  match build_state with
  | some bs =>
    if bs = "" then (run.1, .ok run.2)
    else if bs ∈ valid_build_states then (run.1, .ok run.2)
    else ([], .error buildStateError)
  | none => (run.1, .ok run.2)

/-- A `td` table cell as `get_builds_by_label` inspects it: `childCount` is
Python `len(cell)` (the number of direct child nodes — at least one
whenever the cell encloses the status-icon span), `links` the hrefs of all
`a` descendants in document order (`cell.find_all('a')`). -/
structure TdCell where
  childCount : Nat
  links : List String
deriving Repr, DecidableEq

/-- `os.path.basename` as the scraper uses it: the part of the path after
the last slash (the whole string when there is no slash, empty when the
path ends in a slash). -/
def basename (p : String) : String :=
  String.mk ((p.data.reverse.takeWhile (fun c => c ≠ '/')).reverse)

/-- Message of the `ValueError` Python raises when unpacking
`prj, plan, build = cell.find_all('a')[:3]` with fewer than three links. -/
def unpackError : String := "ValueError: not enough values to unpack"

/-- Body of the inner loop of `BambooAPIClient.get_builds_by_label`
(api.py lines 128-135), run once per status-icon span found on the page:
`cell` is `span.find_parent('td')` (`none` when the span has no `td`
ancestor).  If the cell exists and `len(cell)` is nonzero (Python
truthiness), the first three links are unpacked — a `ValueError` when
there are fewer than three — and the record of the three hrefs' basenames
is yielded; otherwise the span produces nothing. -/
def processIconSpan (cell : Option TdCell) :
    Except String (Option (String × String × String)) :=
  match cell with
  | none => .ok none
  | some c =>
    if c.childCount = 0 then .ok none
    else
      match c.links.take 3 with
      | [prj, plan, build] =>
          .ok (some (basename prj, basename plan, basename build))
      | _ => .error unpackError

/-- A `td` cell of class `variable-value-container` as
`get_branch_variables` inspects it: the `.string` of each `span`
descendant, in document order (`.string` is itself optional in the markup
library). -/
structure VarCell where
  spans : List (Option String)
deriving Repr, DecidableEq

/-- Python list indexing `l[i]`: non-negative indices from the front,
negative indices from the back, `IndexError` (here `none`) out of range. -/
def pyIndex (l : List (Option String)) (i : Int) : Option (Option String) :=
  if 0 ≤ i then l.get? i.toNat
  else if 0 ≤ (l.length : Int) + i then l.get? ((l.length : Int) + i).toNat
  else none

/-- `BambooAPIClient.get_branch_variables` (api.py lines 459-465): loop
over the page's `variable-value-container` cells, but the body
unconditionally `return`s on the first iteration, so only the first cell
is ever examined; with no matching cell the loop body never runs and the
function returns Python `None` (the outer `none` here).  Indexing the
first cell's spans out of range raises an `IndexError`. -/
def get_branch_variables (cells : List VarCell) (variable_number : Int) :
    Except String (Option (Option String)) :=
  match cells with
  | [] => .ok none
  | c :: _ =>
    match pyIndex c.spans variable_number with
    | some s => .ok (some s)
    | none => .error "IndexError: list index out of range"

/-! Concrete servers used by the test scenarios and counterexamples. -/

/-- Items of the first page of the three-page scenario. -/
def page1 : List Nat := List.range 25

/-- Items of the second page of the three-page scenario. -/
def page2 : List Nat := (List.range 25).map (fun n => n + 25)

/-- Items of the third page of the three-page scenario. -/
def page3 : List Nat := (List.range 10).map (fun n => n + 50)

/-- The three-page scenario server: pages of sizes 25, 25 and 10 at
start-indices 0, 25 and 50, each with envelope `size = 60`,
`max-result = 25` and `start-index` echoing the request. -/
def server3 : Server := fun i =>
  if i = 0 then ⟨60, 25, 0, page1⟩
  else if i = 25 then ⟨60, 25, 25, page2⟩
  else if i = 50 then ⟨60, 25, 50, page3⟩
  else ⟨0, 25, i, []⟩

/-- Like `server3` except that the first page echoes `start-index = -1`,
smaller than the requested 0. -/
def serverC1 : Server := fun i =>
  if i = 0 then ⟨60, 25, -1, page1⟩
  else if i = 25 then ⟨60, 25, 25, page2⟩
  else if i = 50 then ⟨60, 25, 50, page3⟩
  else ⟨0, 25, i, []⟩

/-- A server whose first page reports `size = 10` but `max-result = 25`:
page size and echoed page-size limit disagree. -/
def serverC2 : Server := fun i =>
  if i = 0 then ⟨10, 25, 0, List.range 10⟩ else ⟨0, 25, i, []⟩

/-- A one-page server (one item, `size = 1`) for the branch-results
validation scenarios. -/
def serverC6 : Server := fun i =>
  if i = 0 then ⟨1, 25, 0, [7]⟩ else ⟨0, 25, i, []⟩

/-- A session answering every GET/PUT with status 200. -/
def okSession : String → HttpResponse := fun _ => ⟨200, "OK", "body"⟩

/-- A session answering every GET/PUT with status 500 and reason phrase
`Server Error`. -/
def failSession : String → HttpResponse := fun _ => ⟨500, "Server Error", ""⟩

/-- A session answering every POST with status 200. -/
def okPostSession : String → String → HttpResponse := fun _ _ => ⟨200, "OK", "body"⟩

/-- A session answering every POST with status 404 and reason phrase
`Not Found`. -/
def failPostSession : String → String → HttpResponse := fun _ _ => ⟨404, "Not Found", ""⟩

/-! Helper lemmas: the five index-bounded pagination loops never read the
echoed `start-index` field of the envelope. -/

/-- The `get_plans` loop is unchanged by altering the echoed `start-index`. -/
theorem getPlansGo_override (server : Server) (f : Int → Int) :
    ∀ (fuel : Nat) (start size : Int),
      getPlansGo (overrideStartIndex server f) fuel start size =
        getPlansGo server fuel start size := by
  intro fuel
  induction fuel with
  | zero => intro start size; rfl
  | succ n ih => intro start size; simp [getPlansGo, overrideStartIndex, ih]

/-- The `get_branches` loop is unchanged by altering the echoed `start-index`. -/
theorem getBranchesGo_override (server : Server) (f : Int → Int) :
    ∀ (fuel : Nat) (start size : Int),
      getBranchesGo (overrideStartIndex server f) fuel start size =
        getBranchesGo server fuel start size := by
  intro fuel
  induction fuel with
  | zero => intro start size; rfl
  | succ n ih => intro start size; simp [getBranchesGo, overrideStartIndex, ih]

/-- The `get_results` loop is unchanged by altering the echoed `start-index`. -/
theorem getResultsGo_override (server : Server) (f : Int → Int) :
    ∀ (fuel : Nat) (start size : Int),
      getResultsGo (overrideStartIndex server f) fuel start size =
        getResultsGo server fuel start size := by
  intro fuel
  induction fuel with
  | zero => intro start size; rfl
  | succ n ih => intro start size; simp [getResultsGo, overrideStartIndex, ih]

/-- The `get_branch_results` loop is unchanged by altering the echoed
`start-index`. -/
theorem getBranchResultsGo_override (server : Server) (f : Int → Int) :
    ∀ (fuel : Nat) (start size : Int),
      getBranchResultsGo (overrideStartIndex server f) fuel start size =
        getBranchResultsGo server fuel start size := by
  intro fuel
  induction fuel with
  | zero => intro start size; rfl
  | succ n ih =>
    intro start size; simp [getBranchResultsGo, overrideStartIndex, ih]

/-- The `get_environment_results` loop is unchanged by altering the echoed
`start-index`. -/
theorem getEnvResultsGo_override (server : Server) (f : Int → Int) :
    ∀ (fuel : Nat) (start size : Int),
      getEnvResultsGo (overrideStartIndex server f) fuel start size =
        getEnvResultsGo server fuel start size := by
  intro fuel
  induction fuel with
  | zero => intro start size; rfl
  | succ n ih => intro start size; simp [getEnvResultsGo, overrideStartIndex, ih]

/-- C1 (amended): only `get_builds` guards against a pagination reset.
When a fetched page echoes a `start-index` smaller than the requested one,
`get_builds` terminates at once — the aborting request is the last one and
no item of that page is yielded.  The other five paginated methods
(`get_plans`, `get_branches`, `get_results`, `get_branch_results`,
`get_environment_results`) never inspect the echoed `start-index`: their
requests and yielded items are unchanged under arbitrary alteration of
that field. -/
theorem c1_regression_abort_only_get_builds :
    (∀ (server : Server) (fuel : Nat) (start size : Int),
        size ≠ 0 → (server start).startIndex < start →
        getBuildsGo server (fuel + 1) start size = ([start], [])) ∧
    (∀ (server : Server) (f : Int → Int) (fuel : Nat),
        get_plans (overrideStartIndex server f) fuel = get_plans server fuel ∧
        get_branches (overrideStartIndex server f) fuel =
          get_branches server fuel ∧
        get_results (overrideStartIndex server f) fuel =
          get_results server fuel ∧
        (∀ bs, get_branch_results (overrideStartIndex server f) bs fuel =
            get_branch_results server bs fuel) ∧
        get_environment_results (overrideStartIndex server f) fuel =
          get_environment_results server fuel) := by
  constructor
  · intro server fuel start size hsz hreg
    simp [getBuildsGo, hsz, hreg]
  · intro server f fuel
    refine ⟨?_, ?_, ?_, ?_, ?_⟩
    · exact getPlansGo_override server f fuel 0 1
    · exact getBranchesGo_override server f fuel 0 1
    · exact getResultsGo_override server f fuel 0 1
    · intro bs
      simp [get_branch_results, getBranchResultsGo_override]
    · exact getEnvResultsGo_override server f fuel 0 1

/-- Witness for C1: concrete abort of `get_builds` on a regressed
`start-index`, and concrete invariance of `get_plans` under an altered
echoed `start-index`. -/
theorem c1_regression_witness :
    getBuildsGo serverC1 1 0 1 = ([0], []) ∧
    get_plans (overrideStartIndex server3 (fun i => i - 1)) 6 =
      get_plans server3 6 :=
  ⟨c1_regression_abort_only_get_builds.1 serverC1 0 0 1 (by decide) (by decide),
   (c1_regression_abort_only_get_builds.2 server3 (fun i => i - 1) 6).1⟩

/-- C1 counterexample: `get_plans` (and with it the other index-bounded
methods, whose loops are identical) does NOT abort when the first page
echoes `start-index = -1 < 0`: all 60 items are yielded, the items of the
offending page included, and two further requests are issued. -/
theorem c1_counterexample :
    (serverC1 0).startIndex < 0 ∧
    get_plans serverC1 10 = ([0, 25, 50], List.range 60) ∧
    (get_plans serverC1 10).1 ≠ [0] ∧
    (get_plans serverC1 10).2 ≠ [] := by decide

/-- C2 (amended): after each fetched page, the five index-bounded methods
advance the cursor by the envelope's echoed `max-result`; `get_builds`
instead advances it by the envelope's `size` (it never reads
`max-result`). -/
theorem c2_cursor_advance :
    (∀ (server : Server) (fuel : Nat) (start size : Int), start < size →
        getPlansGo server (fuel + 1) start size =
          (start :: (getPlansGo server fuel (start + (server start).maxResult)
              (server start).size).1,
           (server start).items ++ (getPlansGo server fuel
              (start + (server start).maxResult) (server start).size).2) ∧
        getBranchesGo server (fuel + 1) start size =
          (start :: (getBranchesGo server fuel (start + (server start).maxResult)
              (server start).size).1,
           (server start).items ++ (getBranchesGo server fuel
              (start + (server start).maxResult) (server start).size).2) ∧
        getResultsGo server (fuel + 1) start size =
          (start :: (getResultsGo server fuel (start + (server start).maxResult)
              (server start).size).1,
           (server start).items ++ (getResultsGo server fuel
              (start + (server start).maxResult) (server start).size).2) ∧
        getBranchResultsGo server (fuel + 1) start size =
          (start :: (getBranchResultsGo server fuel
              (start + (server start).maxResult) (server start).size).1,
           (server start).items ++ (getBranchResultsGo server fuel
              (start + (server start).maxResult) (server start).size).2) ∧
        getEnvResultsGo server (fuel + 1) start size =
          (start :: (getEnvResultsGo server fuel
              (start + (server start).maxResult) (server start).size).1,
           (server start).items ++ (getEnvResultsGo server fuel
              (start + (server start).maxResult) (server start).size).2)) ∧
    (∀ (server : Server) (fuel : Nat) (start size : Int),
        size ≠ 0 → ¬ (server start).startIndex < start →
        getBuildsGo server (fuel + 1) start size =
          (start :: (getBuildsGo server fuel (start + (server start).size)
              (server start).size).1,
           (server start).items ++ (getBuildsGo server fuel
              (start + (server start).size) (server start).size).2)) := by
  constructor
  · intro server fuel start size h
    refine ⟨?_, ?_, ?_, ?_, ?_⟩ <;>
      simp [getPlansGo, getBranchesGo, getResultsGo, getBranchResultsGo,
        getEnvResultsGo, h]
  · intro server fuel start size hsz hreg
    simp [getBuildsGo, hsz, hreg]

/-- Witness for C2: one concrete page step of `get_plans` (cursor advanced
by the echoed `max-result`) and of `get_builds` (cursor advanced by the
echoed `size`). -/
theorem c2_cursor_witness :
    getPlansGo server3 4 0 1 =
      (0 :: (getPlansGo server3 3 (0 + (server3 0).maxResult)
          (server3 0).size).1,
       (server3 0).items ++ (getPlansGo server3 3 (0 + (server3 0).maxResult)
          (server3 0).size).2) ∧
    getBuildsGo serverC2 4 0 1 =
      (0 :: (getBuildsGo serverC2 3 (0 + (serverC2 0).size)
          (serverC2 0).size).1,
       (serverC2 0).items ++ (getBuildsGo serverC2 3 (0 + (serverC2 0).size)
          (serverC2 0).size).2) :=
  ⟨(c2_cursor_advance.1 server3 3 0 1 (by decide)).1,
   c2_cursor_advance.2 serverC2 3 0 1 (by decide) (by decide)⟩

/-- C2 counterexample: `get_builds` against a first page with `size = 10`
but `max-result = 25` issues its second request at start-index 10
(advancing by `size`), not at 25 as the claim requires. -/
theorem c2_counterexample :
    (serverC2 0).maxResult = 25 ∧ (serverC2 0).size = 10 ∧
    (get_builds serverC2 10).1 = [0, 10] ∧
    (get_builds serverC2 10).1 ≠ [0, 25] := by decide

/-- C3: against the three-page server (pages of 25, 25, 10 items,
`size = 60`, `max-result = 25`, `start-index` echoing the request),
`get_plans` yields exactly the 60 items in concatenated server order and
issues exactly the three requests with start-index 0, 25, 50; extra fuel
changes nothing (the loop really terminates), and it terminates because
the final cursor 75 is no longer `< size`. -/
theorem c3_three_page_scenario :
    get_plans server3 4 = ([0, 25, 50], List.range 60) ∧
    (get_plans server3 4).2 = page1 ++ page2 ++ page3 ∧
    (List.range 60).length = 60 ∧
    get_plans server3 10 = get_plans server3 4 ∧
    (server3 0).size = 60 ∧ (server3 0).maxResult = 25 ∧
    (server3 0).startIndex = 0 ∧ (server3 25).startIndex = 25 ∧
    (server3 50).startIndex = 50 ∧
    page1.length = 25 ∧ page2.length = 25 ∧ page3.length = 10 ∧
    ¬ ((25 + 25 + 25 : Int) < (server3 50).size) := by decide

/-- C4: `_build_expand` comma-joins the prefixed keys, and the joined list
contains exactly the prefixed members of the intersection of the input
with the fixed allow-list — keys outside the allow-list are dropped with
no error (the function is total), order-independently (membership iff). -/
theorem c4_build_expand_allowlist :
    ∀ (expand : List String),
      _build_expand expand = String.intercalate "," (buildExpandList expand) ∧
      ∀ s : String, s ∈ buildExpandList expand ↔
        ∃ k, k ∈ expand ∧ k ∈ valid_expands ∧ s = "results.result." ++ k := by
  intro expand
  refine ⟨rfl, ?_⟩
  intro s
  simp only [buildExpandList, List.mem_map, List.mem_filter, List.mem_dedup,
    decide_eq_true_eq]
  constructor
  · rintro ⟨a, ⟨h1, h2⟩, rfl⟩
    exact ⟨a, h1, h2, rfl⟩
  · rintro ⟨k, h1, h2, rfl⟩
    exact ⟨k, ⟨h1, h2⟩, rfl⟩

/-- Witness for C4: a concrete input with one invalid key; the invalid key
is dropped, the two valid keys survive prefixed. -/
theorem c4_build_expand_witness :
    (_build_expand ["labels", "bogus", "artifacts"] =
      String.intercalate "," (buildExpandList ["labels", "bogus", "artifacts"])) ∧
    ("results.result.labels" ∈ buildExpandList ["labels", "bogus", "artifacts"] ↔
      ∃ k, k ∈ ["labels", "bogus", "artifacts"] ∧ k ∈ valid_expands ∧
        "results.result.labels" = "results.result." ++ k) :=
  ⟨(c4_build_expand_allowlist ["labels", "bogus", "artifacts"]).1,
   (c4_build_expand_allowlist ["labels", "bogus", "artifacts"]).2
     "results.result.labels"⟩

/-- C5 (amended): a record is produced from an icon-span only when its
enclosing `td` cell exists, has at least one child and at least three
links, and it is then the basenames of the first three links; but the
guard in the code checks only that the cell has children, not the link
count, so a cell with children and fewer than three links makes the
unpacking raise a `ValueError` instead of being skipped. -/
theorem c5_link_guard :
    (∀ (cell : Option TdCell) (r : String × String × String),
        processIconSpan cell = .ok (some r) →
        ∃ c, cell = some c ∧ 1 ≤ c.childCount ∧ 3 ≤ c.links.length ∧
          r = (basename (c.links.getD 0 ""), basename (c.links.getD 1 ""),
               basename (c.links.getD 2 ""))) ∧
    (∀ c : TdCell, 1 ≤ c.childCount → c.links.length < 3 →
        processIconSpan (some c) = .error unpackError) := by
  constructor
  · intro cell r h
    obtain - | c := cell
    · simp [processIconSpan] at h
    · obtain ⟨n, links⟩ := c
      by_cases hn : n = 0
      · subst hn; simp [processIconSpan] at h
      · rcases links with - | ⟨a, - | ⟨b, - | ⟨d, t⟩⟩⟩
        · rw [show processIconSpan (some ⟨n, []⟩) =
              if n = 0 then Except.ok none else Except.error unpackError
              from rfl, if_neg hn] at h
          exact Except.noConfusion h
        · rw [show processIconSpan (some ⟨n, [a]⟩) =
              if n = 0 then Except.ok none else Except.error unpackError
              from rfl, if_neg hn] at h
          exact Except.noConfusion h
        · rw [show processIconSpan (some ⟨n, [a, b]⟩) =
              if n = 0 then Except.ok none else Except.error unpackError
              from rfl, if_neg hn] at h
          exact Except.noConfusion h
        · rw [show processIconSpan (some ⟨n, a :: b :: d :: t⟩) =
              if n = 0 then Except.ok none
              else Except.ok (some (basename a, basename b, basename d))
              from rfl, if_neg hn] at h
          simp only [Except.ok.injEq, Option.some.injEq] at h
          exact ⟨⟨n, a :: b :: d :: t⟩, rfl, Nat.one_le_iff_ne_zero.mpr hn,
            by simp only [List.length_cons]; omega, h.symm⟩
  · intro c h1 h2
    obtain ⟨n, links⟩ := c
    have hn : n ≠ 0 := Nat.one_le_iff_ne_zero.mp h1
    rcases links with - | ⟨a, - | ⟨b, - | ⟨d, t⟩⟩⟩
    · rw [show processIconSpan (some ⟨n, []⟩) =
          if n = 0 then Except.ok none else Except.error unpackError
          from rfl, if_neg hn]
    · rw [show processIconSpan (some ⟨n, [a]⟩) =
          if n = 0 then Except.ok none else Except.error unpackError
          from rfl, if_neg hn]
    · rw [show processIconSpan (some ⟨n, [a, b]⟩) =
          if n = 0 then Except.ok none else Except.error unpackError
          from rfl, if_neg hn]
    · exact absurd h2 (by simp only [List.length_cons]; omega)

/-- Witness for C5: a cell with two children and four links yields the
basenames of the first three links, and a cell with one child and no link
raises the unpack error. -/
theorem c5_link_guard_witness :
    (∃ c, (some (TdCell.mk 2 ["u/a", "v/b", "w/c", "x"])) = some c ∧
        1 ≤ c.childCount ∧ 3 ≤ c.links.length ∧
        (("a", "b", "c") : String × String × String) =
          (basename (c.links.getD 0 ""), basename (c.links.getD 1 ""),
           basename (c.links.getD 2 ""))) ∧
    processIconSpan (some (TdCell.mk 1 [])) = .error unpackError :=
  ⟨c5_link_guard.1 (some (TdCell.mk 2 ["u/a", "v/b", "w/c", "x"]))
      ("a", "b", "c") (by decide),
   c5_link_guard.2 (TdCell.mk 1 []) (by decide) (by decide)⟩

/-- C5 counterexample: a cell with one child and a single link is NOT
skipped — the guard `len(cell)` passes and unpacking the three build links
fails with a `ValueError`. -/
theorem c5_counterexample :
    (TdCell.mk 1 ["href"]).links.length < 3 ∧
    1 ≤ (TdCell.mk 1 ["href"]).childCount ∧
    processIconSpan (some (TdCell.mk 1 ["href"])) = .error unpackError ∧
    processIconSpan (some (TdCell.mk 1 ["href"])) ≠ .ok none := by decide

/-- C6 (amended): a non-empty `build_state` outside the fixed enum makes
`get_branch_results` raise the `ValueError` before any request is issued
(the request list is empty); a `build_state` inside the enum raises no
error and the pagination runs.  The empty string, however, is falsy in the
Python guard `if build_state:` and bypasses the validation entirely. -/
theorem c6_build_state_validation :
    (∀ (server : Server) (fuel : Nat) (bs : String),
        bs ≠ "" → bs ∉ valid_build_states →
        get_branch_results server (some bs) fuel = ([], .error buildStateError)) ∧
    (∀ (server : Server) (fuel : Nat) (bs : String),
        bs ∈ valid_build_states →
        get_branch_results server (some bs) fuel =
          ((getBranchResultsGo server fuel 0 1).1,
           .ok (getBranchResultsGo server fuel 0 1).2)) := by
  constructor
  · intro server fuel bs h1 h2
    simp [get_branch_results, h1, h2]
  · intro server fuel bs h
    have h1 : bs ≠ "" := by
      intro he; subst he; simp [valid_build_states] at h
    simp [get_branch_results, h1, h]

/-- Witness for C6: against the one-page server, `build_state = "Bogus"`
yields the validation error with zero requests, while
`build_state = "Successful"` runs the pagination with no error. -/
theorem c6_build_state_witness :
    get_branch_results serverC6 (some "Bogus") 5 = ([], .error buildStateError) ∧
    get_branch_results serverC6 (some "Successful") 5 =
      ((getBranchResultsGo serverC6 5 0 1).1,
       .ok (getBranchResultsGo serverC6 5 0 1).2) :=
  ⟨c6_build_state_validation.1 serverC6 5 "Bogus" (by decide) (by decide),
   c6_build_state_validation.2 serverC6 5 "Successful" (by decide)⟩

/-- C6 counterexample: the empty string is outside the enum, yet
`get_branch_results` raises no validation error for it and issues a
request (start-index 0) — the falsy guard skips the check. -/
theorem c6_counterexample :
    ("" ∉ valid_build_states) ∧
    get_branch_results serverC6 (some "") 5 = ([0], .ok [7]) := by decide

/-- C7: each of the three request primitives returns the error carrying
the response's reason phrase exactly when the status code is not 200, and
returns the response unchanged when it is 200, for every session and
URL (and body data for POST). -/
theorem c7_non_200_raises :
    ∀ (sg : String → HttpResponse) (sp : String → String → HttpResponse)
      (spu : String → HttpResponse) (url data : String),
      ((sg url).status_code ≠ 200 →
        _get_response sg url = .error (sg url).reason) ∧
      ((sg url).status_code = 200 → _get_response sg url = .ok (sg url)) ∧
      ((sp url data).status_code ≠ 200 →
        _post_response sp url data = .error (sp url data).reason) ∧
      ((sp url data).status_code = 200 →
        _post_response sp url data = .ok (sp url data)) ∧
      ((spu url).status_code ≠ 200 →
        _put_response spu url = .error (spu url).reason) ∧
      ((spu url).status_code = 200 → _put_response spu url = .ok (spu url)) := by
  intro sg sp spu url data
  refine ⟨?_, ?_, ?_, ?_, ?_, ?_⟩ <;> intro h <;>
    simp [_get_response, _post_response, _put_response, h]

/-- Witness for C7: concrete failing (500 GET, 404 POST, 500 PUT) and
succeeding (200) sessions. -/
theorem c7_non_200_witness :
    _get_response failSession "u" = .error (failSession "u").reason ∧
    _get_response okSession "u" = .ok (okSession "u") ∧
    _post_response failPostSession "u" "d" =
      .error (failPostSession "u" "d").reason ∧
    _post_response okPostSession "u" "d" = .ok (okPostSession "u" "d") ∧
    _put_response failSession "u2" = .error (failSession "u2").reason ∧
    _put_response okSession "u2" = .ok (okSession "u2") :=
  ⟨(c7_non_200_raises failSession failPostSession failSession "u" "d").1
      (by decide),
   (c7_non_200_raises okSession okPostSession okSession "u" "d").2.1
      (by decide),
   (c7_non_200_raises failSession failPostSession failSession "u" "d").2.2.1
      (by decide),
   (c7_non_200_raises okSession okPostSession okSession "u" "d").2.2.2.1
      (by decide),
   (c7_non_200_raises failSession failPostSession failSession "u2" "d").2.2.2.2.1
      (by decide),
   (c7_non_200_raises okSession okPostSession okSession "u2" "d").2.2.2.2.2
      (by decide)⟩

/-- C8 (amended): `_get_url` is pure concatenation of host, `:`, port,
prefix and endpoint; consequently the example input yields
`http://x:443/p/e` (the slash of the endpoint is kept — nothing is
inserted but nothing is dropped either). -/
theorem c8_get_url_concat :
    (∀ (host : String) (port : Int) (pre endpoint : String),
        _get_url host port pre endpoint =
          host ++ ":" ++ toString port ++ pre ++ endpoint) ∧
    _get_url "http://x" 443 "/p" "/e" = "http://x:443/p/e" :=
  ⟨fun _ _ _ _ => rfl, by decide⟩

/-- C8 counterexample: on the claim's own example input the concatenation
yields `http://x:443/p/e`, not the claimed `http://x:443/pe`. -/
theorem c8_counterexample :
    _get_url "http://x" 443 "/p" "/e" = "http://x:443/p/e" ∧
    _get_url "http://x" 443 "/p" "/e" ≠ "http://x:443/pe" := by decide

/-- C9: with both `plan_key` and `build_number` the results URL ends in
`plan_key-build_number`; with `build_number` but no `plan_key` the
argument is ignored and the URL is the same as with neither — the `/all`
fallback. -/
theorem c9_build_number_requires_plan_key :
    (∀ (base pk bn : String),
        getResultsUrl base (some pk) (some bn) =
          base ++ "/" ++ (pk ++ "-" ++ bn)) ∧
    (∀ (base bn : String),
        getResultsUrl base none (some bn) = getResultsUrl base none none) ∧
    (∀ base : String, getResultsUrl base none none = base ++ "/" ++ "all") := by
  refine ⟨?_, fun base bn => rfl, fun base => rfl⟩
  intro base pk bn
  have hne : pk ++ "-" ++ bn ≠ "" := by
    intro h
    have h2 := congrArg String.length h
    have hd : ("-" : String).length = 1 := by decide
    have he : ("" : String).length = 0 := by decide
    rw [String.length_append, String.length_append, hd, he] at h2
    omega
  simp [getResultsUrl, hne]

/-- C10: `get_branch_variables` returns `None` on a page with no
`variable-value-container` cell (no exception), its result depends only on
the first such cell, and when the requested span index exists in the first
cell it returns that span's string. -/
theorem c10_branch_variables_first_cell :
    (∀ n : Int, get_branch_variables [] n = .ok none) ∧
    (∀ (c : VarCell) (rest rest2 : List VarCell) (n : Int),
        get_branch_variables (c :: rest) n =
          get_branch_variables (c :: rest2) n) ∧
    (∀ (c : VarCell) (rest : List VarCell) (n : Int) (s : Option String),
        pyIndex c.spans n = some s →
        get_branch_variables (c :: rest) n = .ok (some s)) := by
  refine ⟨fun n => rfl, fun c r r2 n => rfl, ?_⟩
  intro c rest n s h
  simp [get_branch_variables, h]

/-- Witness for C10: a first cell with two spans, index 1, returns the
second span's string even with a second matching cell present. -/
theorem c10_branch_variables_witness :
    get_branch_variables
      [VarCell.mk [some "0", some "val"], VarCell.mk [some "other"]] 1 =
      .ok (some (some "val")) :=
  c10_branch_variables_first_cell.2.2 (VarCell.mk [some "0", some "val"])
    [VarCell.mk [some "other"]] 1 (some "val") (by decide)

end Bamboo
